import Mathlib

/-!
Verification of the hardware_google_pixel sources against their
natural-language specification.

Part 1 embeds the `misc_writer` command-line front end
(`src/misc_writer/misc_writer_main.cpp`).  The `MiscWriter` class itself
(`misc_writer.h`) is not among the sources; its action enumeration is
reconstructed from the names used by `misc_writer_main.cpp` and its numeric
limit constants from the usage text printed by `Usage`.

Part 2 embeds the pixelstats `UeventListener`
(`src/pixelstats/include/pixelstats/UeventListener.h`).  Only the class
header is among the sources, so the member-function bodies are modelled
from the specification, as marked on each definition.
-/

/-- The actions of `MiscWriterActions` (from `misc_writer.h`, reconstructed
from the names referenced by `misc_writer_main.cpp`). -/
inductive MiscWriterActions
  | kSetDarkThemeFlag
  | kClearDarkThemeFlag
  | kSetSotaFlag
  | kClearSotaFlag
  | kSetEnablePkvmFlag
  | kSetDisablePkvmFlag
  | kSetWristOrientationFlag
  | kClearWristOrientationFlag
  | kWriteTimeFormat
  | kWriteTimeOffset
  | kSetMaxRamSize
  | kClearMaxRamSize
deriving DecidableEq

/-- The `MiscWriter` object as constructed by `misc_writer_main.cpp`: an
action plus an optional payload (a single char or a string in the C++
constructor overloads, both modelled as a string). -/
structure MiscWriter where
  action : MiscWriterActions
  data : Option String
deriving DecidableEq

/-- Modelled from the spec: `MiscWriter::kRamSizeDefault`, missing from the
sources; the usage text of `misc_writer_main.cpp` documents `-1` as the
sentinel that clears the max-ram-size. -/
def kRamSizeDefault : Int := -1

/-- Modelled from the spec: `MiscWriter::kRamSizeMin`, missing from the
sources; the usage text documents the accepted range as `2048-65536`. -/
def kRamSizeMin : Int := 2048

/-- Modelled from the spec: `MiscWriter::kRamSizeMax`, missing from the
sources; the usage text documents the accepted range as `2048-65536`. -/
def kRamSizeMax : Int := 65536

/-- Modelled from the spec: `MiscWriter::kMinTimeOffset`, missing from the
sources (no claim depends on its value; modelled as -18 hours in ms). -/
def kMinTimeOffset : Int := -64800000

/-- Modelled from the spec: `MiscWriter::kMaxTimeOffset`, missing from the
sources (no claim depends on its value; modelled as +18 hours in ms). -/
def kMaxTimeOffset : Int := 64800000

/-- A nonempty all-digit character list read as a natural number; `none`
otherwise.  Building block for the libbase integer parsers. -/
def digitsToNat : List Char → Option Nat
  | [] => none
  | cs =>
    if cs.all Char.isDigit then
      some (cs.foldl (fun n c => n * 10 + (c.toNat - 48)) 0)
    else none

/-- Model of `android::base::ParseInt<int>` (external libbase collaborator):
an optional sign followed by decimal digits, the whole string consumed,
rejecting values outside the 32-bit int range. -/
def ParseInt (s : String) : Option Int :=
  let cs := s.toList
  let signAndDigits : Bool × List Char :=
    match cs with
    | '-' :: rest => (true, rest)
    | '+' :: rest => (false, rest)
    | _ => (false, cs)
  match digitsToNat signAndDigits.2 with
  | none => none
  | some n =>
    let v : Int := if signAndDigits.1 then -(n : Int) else (n : Int)
    if v < -2147483648 ∨ v > 2147483647 then none else some v

/-- Model of `android::base::ParseUint<size_t>` (external libbase
collaborator): decimal digits, no sign, 64-bit range. -/
def ParseUint (s : String) : Option Nat :=
  match digitsToNat s.toList with
  | none => none
  | some n => if n > 18446744073709551615 then none else some n

/-- The long-option names of the `OPTIONS` table in
`misc_writer_main.cpp`; `getopt_long` only ever hands the loop body one of
these names. -/
inductive OptName
  | setDarkTheme
  | clearDarkTheme
  | setSota
  | clearSota
  | setWristOrientation
  | clearWristOrientation
  | overrideVendorSpaceOffset
  | setEnablePkvm
  | setDisablePkvm
  | setTimeformat
  | setTimeoffset
  | setMaxRamSize
deriving DecidableEq

/-- The `action_map` of `misc_writer_main.cpp`: the argument-free actions
dispatched through the map lookup at the end of the option chain. -/
def action_map : OptName → Option MiscWriterActions
  | .setDarkTheme => some .kSetDarkThemeFlag
  | .clearDarkTheme => some .kClearDarkThemeFlag
  | .setSota => some .kSetSotaFlag
  | .clearSota => some .kClearSotaFlag
  | .setEnablePkvm => some .kSetEnablePkvmFlag
  | .setDisablePkvm => some .kSetDisablePkvmFlag
  | .clearWristOrientation => some .kClearWristOrientationFlag
  | _ => none

/-- The mutable locals of `main`: the constructed writer (at most one) and
the optional vendor-space offset override. -/
structure LoopState where
  writer : Option MiscWriter
  overrideOffset : Option Nat
deriving DecidableEq

/-- Result of one iteration of `main`'s option loop: continue with an
updated state, return `Usage` (the state at that point is carried for
inspection), or hit the `LOG(FATAL)` unreachable branch. -/
inductive StepResult
  | cont (s : LoopState)
  | usage (s : LoopState)
  | fatal
deriving DecidableEq

/-- One iteration of the option loop of `main` in `misc_writer_main.cpp`
(lines 97-184), for a recognized long option `name` with argument
`optarg`.  Mirrors the if-else chain: the vendor-space override, the four
argument-taking actions with their parse / range / duplicate guards in
source order, then the `action_map` dispatch with its duplicate guard. -/
def step (s : LoopState) : OptName → String → StepResult
  | .overrideVendorSpaceOffset, optarg =>
    match ParseUint optarg with
    | none => .usage s
    | some offset => .cont { s with overrideOffset := some offset }
  | .setWristOrientation, optarg =>
    match ParseInt optarg with
    | none => .usage s
    | some o =>
      if o < 0 ∨ o > 3 then .usage s
      else if s.writer.isSome then .usage s
      else
        let w : MiscWriter := ⟨.kSetWristOrientationFlag, some (String.singleton (Char.ofNat (48 + o.toNat)))⟩
        .cont { s with writer := some w }
  | .setTimeformat, optarg =>
    match ParseInt optarg with
    | none => .usage s
    | some f =>
      if f < 0 ∨ f > 1 then .usage s
      else if s.writer.isSome then .usage s
      else
        let w : MiscWriter := ⟨.kWriteTimeFormat, some (String.singleton (Char.ofNat (48 + f.toNat)))⟩
        .cont { s with writer := some w }
  | .setTimeoffset, optarg =>
    match ParseInt optarg with
    | none => .usage s
    | some t =>
      if t < kMinTimeOffset ∨ t > kMaxTimeOffset then .usage s
      else if s.writer.isSome then .usage s
      else .cont { s with writer := some ⟨.kWriteTimeOffset, some (toString t)⟩ }
  | .setMaxRamSize, optarg =>
    match ParseInt optarg with
    | none => .usage s
    | some v =>
      if v ≠ kRamSizeDefault ∧ (v < kRamSizeMin ∨ v > kRamSizeMax) then .usage s
      else if s.writer.isSome then .usage s
      else if v = kRamSizeDefault then
        .cont { s with writer := some ⟨.kClearMaxRamSize, none⟩ }
      else
        .cont { s with writer := some ⟨.kSetMaxRamSize, some (toString v)⟩ }
  | name, _ =>
    match action_map name with
    | some act =>
      if s.writer.isSome then .usage s
      else .cont { s with writer := some ⟨act, none⟩ }
    | none => .fatal

/-- One token handed to the option loop by `getopt_long`: either a
recognized long option with its (possibly empty) argument, or a non-zero
return (unknown option / missing required argument), which `main` answers
with `Usage`. -/
inductive Token
  | opt (name : OptName) (optarg : String)
  | invalid
deriving DecidableEq

/-- How `main`'s `while (getopt_long ...)` loop ends: normally with the
final locals, via `Usage`, or via `LOG(FATAL)`. -/
inductive LoopExit
  | done (s : LoopState)
  | usage (s : LoopState)
  | fatal
deriving DecidableEq

/-- `main`'s option loop over a whole token stream. -/
def runLoop (s : LoopState) : List Token → LoopExit
  | [] => .done s
  | .invalid :: _ => .usage s
  | .opt name optarg :: rest =>
    match step s name optarg with
    | .cont s2 => runLoop s2 rest
    | .usage s2 => .usage s2
    | .fatal => .fatal

/-- Observable outcome of `main`: the usage failure (`EXIT_FAILURE` after
printing usage), the fatal abort, or handing a single constructed writer
and the optional offset to `PerformAction`. -/
inductive MainResult
  | usageFailure
  | fatalCrash
  | perform (w : MiscWriter) (offset : Option Nat)
deriving DecidableEq

/-- `main` of `misc_writer_main.cpp`: run the option loop from empty
locals; if no writer was constructed, return the usage failure, otherwise
perform the single action. -/
def mainResult (toks : List Token) : MainResult :=
  match runLoop ⟨none, none⟩ toks with
  | .usage _ => .usageFailure
  | .fatal => .fatalCrash
  | .done s =>
    match s.writer with
    | none => .usageFailure
    | some w => .perform w s.overrideOffset

/-- An option that constructs a `MiscWriter` action: every recognized
option except the vendor-space offset override. -/
def isActionName (name : OptName) : Bool :=
  name ≠ OptName.overrideVendorSpaceOffset

/-- A token that carries an action option. -/
def tokIsAction : Token → Bool
  | .opt name _ => isActionName name
  | .invalid => false

/-- The telemetry records of the spec's data model: one constructor per
report the `UeventListener` emits (connector attach/detach with optional
duration, audio attach/detach with optional duration, mic health,
overheat). -/
inductive Report
  | usbConnector (mode : String) (duration : Option Nat)
  | usbAudio (attach : Bool) (product : String) (duration : Option Nat)
  | micBrokenOrDegraded (mic : Nat) (isBroken : Bool)
  | usbOverheat (driver : String)
deriving DecidableEq

/-- Modelled from the spec: the `ConnectorState` of the data model backing
`is_usb_attached_` and `usb_connect_time_` of `UeventListener.h`; the
member-function bodies are missing from the sources.  `attachTime` is
meaningful only while `attached` is true. -/
structure ConnectorState where
  attached : Bool
  attachTime : Nat
deriving DecidableEq

/-- Modelled from the spec: the decode of a `POWER_SUPPLY_TYPEC_MODE`
value into attached vs detached ("mode changes to an attached mode" /
"mode changes to detached"); the typec mode string "none" denotes the
detached state, every other mode an attached one. -/
def isAttachedMode (mode : String) : Bool :=
  mode ≠ "none"

/-- Modelled from the spec: `UeventListener::ReportUsbConnectorUevents`,
whose body is missing from the sources.  Same-state repeats are debounced
(no transition, no report); a detached-to-attached transition records the
attach timestamp and reports a connect event with the mode and no
duration; an attached-to-detached transition reports a disconnect event
carrying the elapsed time since the recorded attach timestamp and clears
the attached flag. -/
def ReportUsbConnectorUevents (mode : String) (now : Nat) (st : ConnectorState) :
    ConnectorState × List Report :=
  let att := isAttachedMode mode
  if att = st.attached then (st, [])
  else if att then
    ({ attached := true, attachTime := now }, [.usbConnector mode none])
  else
    ({ attached := false, attachTime := st.attachTime },
     [.usbConnector mode (some (now - st.attachTime))])

/-- Processing a whole sequence of connector uevents, each a mode value
with the wall-clock instant at which it is handled, collecting the
reports in order. -/
def runConnector (st : ConnectorState) : List (String × Nat) → ConnectorState × List Report
  | [] => (st, [])
  | (m, t) :: rest =>
    let s1 := ReportUsbConnectorUevents m t st
    let s2 := runConnector s1.1 rest
    (s2.1, s1.2 ++ s2.2)

/-- Modelled from the spec: the `AudioAccessoryState` of the data model
backing `usb_audio_connect_time_` and `attached_product_` of
`UeventListener.h`; the member-function bodies are missing from the
sources. -/
structure AudioState where
  attachedProduct : Option String
  attachTime : Nat
deriving DecidableEq

/-- Modelled from the spec: `UeventListener::ReportUsbAudioUevents`, whose
body is missing from the sources.  `ACTION=add` records the product and
attach time and reports an attach event; `ACTION=remove` with a matching
recorded product reports a detach event with duration now minus attach
time and clears the state, while a mismatched remove skips the duration
report but still resets the state to no-device; `ACTION=change` is
informational and ignored. -/
def ReportUsbAudioUevents (driver product action : String) (now : Nat) (st : AudioState) :
    AudioState × List Report :=
  if action = "add" then
    ({ attachedProduct := some product, attachTime := now }, [.usbAudio true product none])
  else if action = "remove" then
    if st.attachedProduct = some product then
      ({ attachedProduct := none, attachTime := st.attachTime },
       [.usbAudio false product (some (now - st.attachTime))])
    else
      ({ attachedProduct := none, attachTime := st.attachTime }, [])
  else (st, [])

/-- The health marker decoded for one microphone index. -/
inductive MicHealth
  | broken
  | degraded
deriving DecidableEq

/-- `UeventListener::ReportMicBrokenOrDegraded` (header line 51): build
the MicBrokenOrDegraded record for one mic index. -/
def ReportMicBrokenOrDegraded (mic : Nat) (isBroken : Bool) : Report :=
  .micBrokenOrDegraded mic isBroken

/-- Modelled from the spec: `UeventListener::ReportMicStatusUevents`,
whose body is missing from the sources.  Stateless per message: each mic
index present in the decoded field set independently produces its own
report, with isBroken true for a broken marker and false for degraded. -/
def ReportMicStatusUevents (entries : List (Nat × MicHealth)) : List Report :=
  entries.map (fun e => ReportMicBrokenOrDegraded e.1 (e.2 = MicHealth.broken))

/-- Modelled from the spec: the decoder of a mic-status field value into
(mic index, health marker) pairs; the concrete wire format is missing
from the sources, modelled as semicolon-separated index=marker tokens for
indices 0 and 1. -/
def micDecode (v : String) : List (Nat × MicHealth) :=
  (v.splitOn ";").filterMap (fun tok =>
    match tok.splitOn "=" with
    | [i, m] =>
      match i.toNat? with
      | some idx =>
        if idx ≤ 1 then
          if m = "broken" then some (idx, MicHealth.broken)
          else if m = "degraded" then some (idx, MicHealth.degraded)
          else none
        else none
      | none => none
    | _ => none)

/-- The construction-time configuration of `UeventListener` (header lines
39-41, 54-55): the audio uevent device path `kAudioUevent` and the
overheat-mitigation sysfs root `kUsbPortOverheatPath`. -/
structure Config where
  kAudioUevent : String
  kUsbPortOverheatPath : String
deriving DecidableEq

/-- The default overheat-mitigation sysfs root of the `UeventListener`
constructor (header line 41). -/
def kDefaultOverheatPath : String :=
  "/sys/devices/platform/soc/soc:google,overheat_mitigation"

/-- The `UeventListener` constructor (header lines 39-41): the audio
uevent path is required, the overheat path defaults to
`kDefaultOverheatPath` when not supplied. -/
def mkUeventListener (audio_uevent : String)
    (overheat_path : String := kDefaultOverheatPath) : Config :=
  ⟨audio_uevent, overheat_path⟩

/-- Modelled from the spec: the known power-supply/typec driver location
the connector classification matches; the literal is missing from the
sources. -/
def kTypecPath : String :=
  "/devices/platform/soc/soc:google,usbc/power_supply/usb"

/-- Modelled from the spec: whether a device path matches the typec
driver location. -/
def pathMatchesTypec (path : String) : Bool :=
  path = kTypecPath

/-- Split one uevent line at its first `=` into key and value; lines
without `=` are skipped (EventParser contract, spec section 4.1). -/
def splitFieldLine (line : String) : Option (String × String) :=
  if line.toList.contains '=' then
    let parts := line.splitOn "="
    some (parts.headD "", String.intercalate "=" parts.tail)
  else none

/-- Modelled from the spec: the EventParser — first line of the buffer is
the device path, each later line is split at its first `=`; an empty
buffer yields an empty path and no fields. -/
def parseUevent (buffer : List String) : String × List (String × String) :=
  match buffer with
  | [] => ("", [])
  | path :: rest => (path, rest.filterMap splitFieldLine)

/-- Look up a field by key (keys unique per the spec's ParsedFields). -/
def lookupField (key : String) (fields : List (String × String)) : Option String :=
  (fields.find? (fun f => f.1 = key)).map (fun f => f.2)

/-- The classification of one parsed message (spec section 4.2). -/
inductive Candidate
  | connector (mode : String)
  | audio (driver product action : String)
  | mic (entries : List (Nat × MicHealth))
  | overheat (driver : String)
  | ignored
deriving DecidableEq

/-- Modelled from the spec: the Classifier, a pure function of device path
and field mapping.  Connector: typec path and a `POWER_SUPPLY_TYPEC_MODE`
field.  Audio: the configured audio uevent path with `DRIVER`, `PRODUCT`
and an `ACTION` of add/remove/change.  Mic: the audio devpath with a
`MIC_STATUS` field.  Overheat: the configured overheat root with a
`DRIVER` field.  Everything else is ignored. -/
def classify (cfg : Config) (path : String) (fields : List (String × String)) : Candidate :=
  if pathMatchesTypec path ∧ (lookupField "POWER_SUPPLY_TYPEC_MODE" fields).isSome then
    .connector ((lookupField "POWER_SUPPLY_TYPEC_MODE" fields).getD "")
  else if path = cfg.kAudioUevent ∧ (lookupField "DRIVER" fields).isSome ∧
      (lookupField "PRODUCT" fields).isSome ∧
      ((lookupField "ACTION" fields) = some "add" ∨
       (lookupField "ACTION" fields) = some "remove" ∨
       (lookupField "ACTION" fields) = some "change") then
    .audio ((lookupField "DRIVER" fields).getD "") ((lookupField "PRODUCT" fields).getD "")
      ((lookupField "ACTION" fields).getD "")
  else if path = cfg.kAudioUevent ∧ (lookupField "MIC_STATUS" fields).isSome then
    .mic (micDecode ((lookupField "MIC_STATUS" fields).getD ""))
  else if path = cfg.kUsbPortOverheatPath ∧ (lookupField "DRIVER" fields).isSome then
    .overheat ((lookupField "DRIVER" fields).getD "")
  else .ignored

/-- The whole tracked state of the listener: connector and audio
accessory sub-states (header lines 59-62). -/
structure ListenerState where
  connector : ConnectorState
  audio : AudioState
deriving DecidableEq

/-- Modelled from the spec: `UeventListener::ProcessUevent` (header line
43), whose body is missing from the sources.  Single-shot: parse the
buffer, classify, dispatch to the per-family handler, and return a
success/failure indicator for testability; a message that classifies as
ignored is a failure and touches no state. -/
def ProcessUevent (cfg : Config) (buffer : List String) (now : Nat) (st : ListenerState) :
    Bool × ListenerState × List Report :=
  let parsed := parseUevent buffer
  match classify cfg parsed.1 parsed.2 with
  | .ignored => (false, st, [])
  | .connector mode =>
    let r := ReportUsbConnectorUevents mode now st.connector
    (true, { st with connector := r.1 }, r.2)
  | .audio driver product action =>
    let r := ReportUsbAudioUevents driver product action now st.audio
    (true, { st with audio := r.1 }, r.2)
  | .mic entries => (true, st, ReportMicStatusUevents entries)
  | .overheat driver => (true, st, [.usbOverheat driver])

/-- One interaction with the transport: a delivered message buffer with
the wall-clock instant of its processing, or an unrecoverable transport
failure. -/
inductive Delivery
  | message (buffer : List String) (now : Nat)
  | transportFailure
deriving DecidableEq

/-- Modelled from the spec: `UeventListener::ListenForever` (header line
44), whose body is missing from the sources, run over a finite transport
trace: repeat the single-shot step for every delivered message regardless
of its success/failure indicator; the only exit is an unrecoverable
transport failure, which stops the loop at once. -/
def ListenForever (cfg : Config) (st : ListenerState) :
    List Delivery → ListenerState × List Report
  | [] => (st, [])
  | .message buffer now :: rest =>
    let r := ProcessUevent cfg buffer now st
    let k := ListenForever cfg r.2.1 rest
    (k.1, r.2.2 ++ k.2)
  | .transportFailure :: _ => (st, [])

lemma step_override_writer (s : LoopState) (optarg : String) :
    (∃ s2, step s OptName.overrideVendorSpaceOffset optarg = StepResult.usage s2 ∧
      s2.writer = s.writer) ∨
    (∃ s2, step s OptName.overrideVendorSpaceOffset optarg = StepResult.cont s2 ∧
      s2.writer = s.writer) := by
  simp only [step]
  cases ParseUint optarg with
  | none => exact Or.inl ⟨s, rfl, rfl⟩
  | some offset => exact Or.inr ⟨{ s with overrideOffset := some offset }, rfl, rfl⟩

lemma runLoop_noAction (toks : List Token) : ∀ s : LoopState,
    (∀ tok ∈ toks, tokIsAction tok = false) →
    (∃ s2, runLoop s toks = LoopExit.usage s2) ∨
    (∃ s2, runLoop s toks = LoopExit.done s2 ∧ s2.writer = s.writer) := by
  induction toks with
  | nil =>
    intro s _
    exact Or.inr ⟨s, rfl, rfl⟩
  | cons tok rest ih =>
    intro s h
    cases tok with
    | invalid => exact Or.inl ⟨s, rfl⟩
    | opt name optarg =>
      have hname : isActionName name = false := by
        have := h _ (List.mem_cons_self _ _)
        simpa [tokIsAction] using this
      have hn : name = OptName.overrideVendorSpaceOffset := by
        cases name <;> first | rfl | simp [isActionName] at hname
      subst hn
      have hrest : ∀ tok ∈ rest, tokIsAction tok = false :=
        fun t ht => h t (List.mem_cons_of_mem _ ht)
      rcases step_override_writer s optarg with ⟨s2, hs, hw⟩ | ⟨s2, hs, hw⟩
      · exact Or.inl ⟨s2, by simp [runLoop, hs]⟩
      · rcases ih s2 hrest with ⟨s3, h3⟩ | ⟨s3, h3, hw3⟩
        · exact Or.inl ⟨s3, by simp [runLoop, hs, h3]⟩
        · exact Or.inr ⟨s3, by simp [runLoop, hs, h3], by rw [hw3, hw]⟩

/-- Claim C8: the misc_writer CLI accepts exactly one action per
invocation: a command line with no action option makes `main` return the
usage failure, and an action option arriving after an action has already
been constructed makes the loop return the usage failure with the first
action still the one constructed (no second action is built). -/
theorem misc_writer_single_action :
    (∀ toks : List Token, (∀ tok ∈ toks, tokIsAction tok = false) →
      mainResult toks = MainResult.usageFailure) ∧
    (∀ (s : LoopState) (name : OptName) (arg : String) (w : MiscWriter),
      isActionName name = true → s.writer = some w →
      step s name arg = StepResult.usage s) := by
  constructor
  · intro toks h
    unfold mainResult
    rcases runLoop_noAction toks ⟨none, none⟩ h with ⟨s2, h2⟩ | ⟨s2, h2, hw⟩
    · rw [h2]
    · rw [h2]
      have hn : s2.writer = none := hw
      simp [hn]
  · intro s name arg w ha hw
    have hw2 : s.writer.isSome = true := by rw [hw]; rfl
    cases name
    case overrideVendorSpaceOffset => simp [isActionName] at ha
    case setWristOrientation =>
      simp only [step]
      cases ParseInt arg with
      | none => rfl
      | some o => simp [hw2]
    case setTimeformat =>
      simp only [step]
      cases ParseInt arg with
      | none => rfl
      | some f => simp [hw2]
    case setTimeoffset =>
      simp only [step]
      cases ParseInt arg with
      | none => rfl
      | some t => simp [hw2]
    case setMaxRamSize =>
      simp only [step]
      cases ParseInt arg with
      | none => rfl
      | some v => simp [hw2]
    all_goals simp [step, action_map, hw2]

/-- Witness for C8 at concrete inputs: a command line carrying only the
offset override ends in the usage failure, and a duplicate `--set-sota`
style second action is answered by usage with the state unchanged. -/
theorem misc_writer_single_action_witness :
    mainResult [Token.opt OptName.overrideVendorSpaceOffset "7"] = MainResult.usageFailure ∧
    step ⟨some ⟨MiscWriterActions.kSetSotaFlag, none⟩, none⟩ OptName.setSota "" =
      StepResult.usage ⟨some ⟨MiscWriterActions.kSetSotaFlag, none⟩, none⟩ :=
  ⟨misc_writer_single_action.1 _ (by decide),
   misc_writer_single_action.2 _ _ _ ⟨MiscWriterActions.kSetSotaFlag, none⟩ (by decide) rfl⟩

/-- Claim C9: the `--set-max-ram-size` branch: the sentinel -1
(`kRamSizeDefault`) constructs the clear action; values inside
[`kRamSizeMin`, `kRamSizeMax`] construct the set action carrying the
decimal string of the value; every other value, and every unparsable
argument, yields the usage failure and constructs no action. -/
theorem misc_writer_max_ram_size :
    kRamSizeDefault = -1 ∧ kRamSizeMin = 2048 ∧ kRamSizeMax = 65536 ∧
    (∀ (s : LoopState) (arg : String), s.writer = none →
      ParseInt arg = some kRamSizeDefault →
      step s OptName.setMaxRamSize arg =
        StepResult.cont { s with writer := some ⟨MiscWriterActions.kClearMaxRamSize, none⟩ }) ∧
    (∀ (s : LoopState) (arg : String) (v : Int), s.writer = none →
      ParseInt arg = some v → kRamSizeMin ≤ v → v ≤ kRamSizeMax →
      step s OptName.setMaxRamSize arg =
        StepResult.cont { s with writer := some ⟨MiscWriterActions.kSetMaxRamSize, some (toString v)⟩ }) ∧
    (∀ (s : LoopState) (arg : String) (v : Int),
      ParseInt arg = some v → v ≠ kRamSizeDefault → (v < kRamSizeMin ∨ v > kRamSizeMax) →
      step s OptName.setMaxRamSize arg = StepResult.usage s) ∧
    (∀ (s : LoopState) (arg : String),
      ParseInt arg = none → step s OptName.setMaxRamSize arg = StepResult.usage s) := by
  refine ⟨rfl, rfl, rfl, ?_, ?_, ?_, ?_⟩
  · intro s arg hw hp
    simp [step, hp, hw]
  · intro s arg v hw hp h1 h2
    have hd : v ≠ kRamSizeDefault := by
      simp only [kRamSizeDefault]
      simp only [kRamSizeMin] at h1
      omega
    have hr : ¬(v ≠ kRamSizeDefault ∧ (v < kRamSizeMin ∨ v > kRamSizeMax)) := by
      intro h
      rcases h.2 with h3 | h3 <;> omega
    simp only [step, hp, hw]
    rw [if_neg hr]
    simp [hd]
  · intro s arg v hp hd hr
    simp only [step, hp]
    rw [if_pos ⟨hd, hr⟩]
  · intro s arg hp
    simp [step, hp]

/-- Witness for C9 at concrete arguments: "-1" clears, "4096" sets with
payload "4096", "70000" and "abc" yield usage. -/
theorem misc_writer_max_ram_size_witness :
    (({ writer := none, overrideOffset := none } : LoopState).writer = none ∧
      ParseInt "-1" = some kRamSizeDefault ∧
      step ⟨none, none⟩ OptName.setMaxRamSize "-1" =
        StepResult.cont ⟨some ⟨MiscWriterActions.kClearMaxRamSize, none⟩, none⟩) ∧
    (ParseInt "4096" = some 4096 ∧ kRamSizeMin ≤ 4096 ∧ (4096 : Int) ≤ kRamSizeMax ∧
      step ⟨none, none⟩ OptName.setMaxRamSize "4096" =
        StepResult.cont ⟨some ⟨MiscWriterActions.kSetMaxRamSize, some "4096"⟩, none⟩) ∧
    (ParseInt "70000" = some 70000 ∧
      step ⟨none, none⟩ OptName.setMaxRamSize "70000" = StepResult.usage ⟨none, none⟩) ∧
    (ParseInt "abc" = none ∧
      step ⟨none, none⟩ OptName.setMaxRamSize "abc" = StepResult.usage ⟨none, none⟩) :=
  ⟨⟨rfl, by decide, misc_writer_max_ram_size.2.2.2.1 _ _ rfl (by decide)⟩,
   ⟨by decide, by decide, by decide,
     misc_writer_max_ram_size.2.2.2.2.1 _ _ 4096 rfl (by decide) (by decide) (by decide)⟩,
   ⟨by decide,
     misc_writer_max_ram_size.2.2.2.2.2.1 _ _ 70000 (by decide) (by decide) (by decide)⟩,
   ⟨by decide, misc_writer_max_ram_size.2.2.2.2.2.2 _ _ (by decide)⟩⟩

/-- Claim C10: `--set-wrist-orientation` accepts exactly the integers 0-3
and `--set-timeformat` exactly 0-1, each constructing its action with the
single ASCII character ASCII-0 plus the value as payload; out-of-range or
unparsable arguments yield the usage failure. -/
theorem misc_writer_char_payload_options :
    (∀ (s : LoopState) (arg : String) (o : Int), s.writer = none →
      ParseInt arg = some o → 0 ≤ o → o ≤ 3 →
      step s OptName.setWristOrientation arg =
        StepResult.cont { s with writer := some ⟨MiscWriterActions.kSetWristOrientationFlag, some (String.singleton (Char.ofNat (48 + o.toNat)))⟩ }) ∧
    (∀ (s : LoopState) (arg : String) (o : Int),
      ParseInt arg = some o → (o < 0 ∨ o > 3) →
      step s OptName.setWristOrientation arg = StepResult.usage s) ∧
    (∀ (s : LoopState) (arg : String),
      ParseInt arg = none →
      step s OptName.setWristOrientation arg = StepResult.usage s) ∧
    (∀ (s : LoopState) (arg : String) (f : Int), s.writer = none →
      ParseInt arg = some f → 0 ≤ f → f ≤ 1 →
      step s OptName.setTimeformat arg =
        StepResult.cont { s with writer := some ⟨MiscWriterActions.kWriteTimeFormat, some (String.singleton (Char.ofNat (48 + f.toNat)))⟩ }) ∧
    (∀ (s : LoopState) (arg : String) (f : Int),
      ParseInt arg = some f → (f < 0 ∨ f > 1) →
      step s OptName.setTimeformat arg = StepResult.usage s) ∧
    (∀ (s : LoopState) (arg : String),
      ParseInt arg = none →
      step s OptName.setTimeformat arg = StepResult.usage s) := by
  refine ⟨?_, ?_, ?_, ?_, ?_, ?_⟩
  · intro s arg o hw hp h0 h3
    have hr : ¬(o < 0 ∨ o > 3) := by omega
    simp [step, hp, hw, hr]
  · intro s arg o hp hr
    simp only [step, hp]
    rw [if_pos hr]
  · intro s arg hp
    simp [step, hp]
  · intro s arg f hw hp h0 h1
    have hr : ¬(f < 0 ∨ f > 1) := by omega
    simp [step, hp, hw, hr]
  · intro s arg f hp hr
    simp only [step, hp]
    rw [if_pos hr]
  · intro s arg hp
    simp [step, hp]

/-- Witness for C10 at concrete arguments: orientation "2" gives payload
"2", timeformat "1" gives payload "1", out-of-range "4" and "9" and the
unparsable "x" give usage. -/
theorem misc_writer_char_payload_options_witness :
    (ParseInt "2" = some 2 ∧
      step ⟨none, none⟩ OptName.setWristOrientation "2" =
        StepResult.cont ⟨some ⟨MiscWriterActions.kSetWristOrientationFlag, some "2"⟩, none⟩) ∧
    (ParseInt "4" = some 4 ∧
      step ⟨none, none⟩ OptName.setWristOrientation "4" = StepResult.usage ⟨none, none⟩) ∧
    (ParseInt "x" = none ∧
      step ⟨none, none⟩ OptName.setWristOrientation "x" = StepResult.usage ⟨none, none⟩) ∧
    (ParseInt "1" = some 1 ∧
      step ⟨none, none⟩ OptName.setTimeformat "1" =
        StepResult.cont ⟨some ⟨MiscWriterActions.kWriteTimeFormat, some "1"⟩, none⟩) ∧
    (ParseInt "9" = some 9 ∧
      step ⟨none, none⟩ OptName.setTimeformat "9" = StepResult.usage ⟨none, none⟩) :=
  ⟨⟨by decide, misc_writer_char_payload_options.1 _ _ 2 rfl (by decide) (by decide) (by decide)⟩,
   ⟨by decide, misc_writer_char_payload_options.2.1 _ _ 4 (by decide) (by decide)⟩,
   ⟨by decide, misc_writer_char_payload_options.2.2.1 _ _ (by decide)⟩,
   ⟨by decide, misc_writer_char_payload_options.2.2.2.1 _ _ 1 rfl (by decide) (by decide) (by decide)⟩,
   ⟨by decide, misc_writer_char_payload_options.2.2.2.2.1 _ _ 9 (by decide) (by decide)⟩⟩

lemma report_conn_same (m : String) (t : Nat) (st : ConnectorState)
    (h : isAttachedMode m = st.attached) :
    ReportUsbConnectorUevents m t st = (st, []) := by
  simp [ReportUsbConnectorUevents, h]

lemma report_conn_attached (m : String) (t : Nat) (st : ConnectorState) :
    ((ReportUsbConnectorUevents m t st).1).attached = isAttachedMode m := by
  by_cases h : isAttachedMode m = st.attached
  · simp [ReportUsbConnectorUevents, h]
  · cases ha : isAttachedMode m <;> cases hb : st.attached <;>
      simp_all [ReportUsbConnectorUevents]

lemma report_conn_diff_len (m : String) (t : Nat) (st : ConnectorState)
    (h : isAttachedMode m ≠ st.attached) :
    (ReportUsbConnectorUevents m t st).2.length = 1 := by
  simp only [ReportUsbConnectorUevents]
  rw [if_neg h]
  cases ha : isAttachedMode m <;> simp [ha]

lemma runConnector_noTransition (xs : List (String × Nat)) : ∀ st : ConnectorState,
    (∀ p ∈ xs, isAttachedMode p.1 = st.attached) →
    runConnector st xs = (st, []) := by
  induction xs with
  | nil => intro st _; rfl
  | cons p rest ih =>
    intro st h
    have h1 : isAttachedMode p.1 = st.attached := h p (List.mem_cons_self _ _)
    have h2 : ∀ q ∈ rest, isAttachedMode q.1 = st.attached :=
      fun q hq => h q (List.mem_cons_of_mem _ hq)
    cases p with
    | mk m t => simp [runConnector, report_conn_same m t st h1, ih st h2]

lemma runConnector_append (xs ys : List (String × Nat)) : ∀ st : ConnectorState,
    runConnector st (xs ++ ys) =
      ((runConnector (runConnector st xs).1 ys).1,
        (runConnector st xs).2 ++ (runConnector (runConnector st xs).1 ys).2) := by
  induction xs with
  | nil => intro st; simp [runConnector]
  | cons p rest ih =>
    intro st
    cases p with
    | mk m t => simp [runConnector, ih, List.append_assoc]

/-- Claim C1: connector uevents whose mode value is identical to the
currently tracked mode are debounced — no state transition, no report —
and a run of N consecutive messages carrying the same mode value produces
exactly one UsbConnectorEvent report, for the first message. -/
theorem usb_connector_same_mode_debounced :
    (∀ (st : ConnectorState) (m : String) (t : Nat),
      isAttachedMode m = st.attached → ReportUsbConnectorUevents m t st = (st, [])) ∧
    (∀ (st : ConnectorState) (m : String) (ts : List Nat),
      ts ≠ [] → isAttachedMode m ≠ st.attached →
      (runConnector st (ts.map (fun t => (m, t)))).2.length = 1) := by
  constructor
  · intro st m t h
    exact report_conn_same m t st h
  · intro st m ts hne hdiff
    cases ts with
    | nil => exact absurd rfl hne
    | cons t rest =>
      have h1 : ((ReportUsbConnectorUevents m t st).1).attached = isAttachedMode m :=
        report_conn_attached m t st
      have h2 : runConnector (ReportUsbConnectorUevents m t st).1
          (rest.map (fun t2 => (m, t2))) = ((ReportUsbConnectorUevents m t st).1, []) := by
        apply runConnector_noTransition
        intro p hp
        rcases List.mem_map.mp hp with ⟨t2, _, rfl⟩
        exact h1.symm
      simp [runConnector, h2, report_conn_diff_len m t st hdiff]

/-- Witness for C1: with the detached start state, a repeated "none" mode
is debounced, and a run of three "usb-host" messages yields one report. -/
theorem usb_connector_same_mode_debounced_witness :
    (isAttachedMode "none" = ({ attached := false, attachTime := 0 } : ConnectorState).attached ∧
      ReportUsbConnectorUevents "none" 5 ⟨false, 0⟩ = (⟨false, 0⟩, [])) ∧
    (([3, 4, 7] : List Nat) ≠ [] ∧
      isAttachedMode "usb-host" ≠ ({ attached := false, attachTime := 0 } : ConnectorState).attached ∧
      (runConnector ⟨false, 0⟩ (([3, 4, 7] : List Nat).map (fun t => ("usb-host", t)))).2.length = 1) :=
  ⟨⟨by decide, usb_connector_same_mode_debounced.1 _ _ 5 (by decide)⟩,
   ⟨by decide, by decide,
     usb_connector_same_mode_debounced.2 ⟨false, 0⟩ "usb-host" [3, 4, 7] (by decide) (by decide)⟩⟩

/-- Claim C2: an attach message at time t1, followed (possibly after
further attached-mode repeats) by a detach message at time t2, reports a
disconnect whose duration is the elapsed time t2 - t1 since the recorded
attach timestamp, and clears the attached flag. -/
theorem usb_connector_detach_duration :
    ∀ (st : ConnectorState) (m1 : String) (t1 : Nat) (mids : List (String × Nat))
      (m2 : String) (t2 : Nat),
      st.attached = false → isAttachedMode m1 = true →
      (∀ p ∈ mids, isAttachedMode p.1 = true) → isAttachedMode m2 = false →
      runConnector st (((m1, t1) :: mids) ++ [(m2, t2)]) =
        (⟨false, t1⟩,
          [Report.usbConnector m1 none, Report.usbConnector m2 (some (t2 - t1))]) := by
  intro st m1 t1 mids m2 t2 h0 h1 hm h2
  have e1 : ReportUsbConnectorUevents m1 t1 st = (⟨true, t1⟩, [.usbConnector m1 none]) := by
    simp [ReportUsbConnectorUevents, h1, h0]
  have e2 : ReportUsbConnectorUevents m2 t2 ⟨true, t1⟩ =
      (⟨false, t1⟩, [.usbConnector m2 (some (t2 - t1))]) := by
    simp [ReportUsbConnectorUevents, h2]
  have emid : runConnector (⟨true, t1⟩ : ConnectorState) mids = (⟨true, t1⟩, []) :=
    runConnector_noTransition mids ⟨true, t1⟩ (fun p hp => hm p hp)
  simp only [List.cons_append, runConnector, e1, List.append_eq]
  rw [runConnector_append, emid]
  simp [runConnector, e2]

/-- Witness for C2: attach "usb-host" at 100, one attached repeat at 150,
detach "none" at 260 reports duration 160 and clears the flag. -/
theorem usb_connector_detach_duration_witness :
    (({ attached := false, attachTime := 0 } : ConnectorState).attached = false ∧
      isAttachedMode "usb-host" = true ∧
      (∀ p ∈ ([("usb-host", 150)] : List (String × Nat)), isAttachedMode p.1 = true) ∧
      isAttachedMode "none" = false) ∧
    runConnector ⟨false, 0⟩ ((("usb-host", 100) :: [("usb-host", 150)]) ++ [("none", 260)]) =
      (⟨false, 100⟩,
        [Report.usbConnector "usb-host" none, Report.usbConnector "none" (some 160)]) :=
  ⟨⟨by decide, by decide, by decide, by decide⟩,
   usb_connector_detach_duration ⟨false, 0⟩ "usb-host" 100 [("usb-host", 150)] "none" 260
     (by decide) (by decide) (by decide) (by decide)⟩

/-- Claim C3: on a USB-audio remove, a matching recorded product yields a
detach report with duration now minus the attach time and the state is
cleared; a mismatched product yields no duration report while the state
is still reset to no-device, so a subsequent unmatched remove shows the
same skip behaviour instead of using stale data. -/
theorem usb_audio_remove_match_mismatch :
    ∀ (st : AudioState) (d p : String) (now : Nat),
      (st.attachedProduct = some p →
        ReportUsbAudioUevents d p "remove" now st =
          (⟨none, st.attachTime⟩, [Report.usbAudio false p (some (now - st.attachTime))])) ∧
      (st.attachedProduct ≠ some p →
        ReportUsbAudioUevents d p "remove" now st = (⟨none, st.attachTime⟩, [])) ∧
      (st.attachedProduct = none →
        ReportUsbAudioUevents d p "remove" now st = (⟨none, st.attachTime⟩, [])) := by
  intro st d p now
  refine ⟨?_, ?_, ?_⟩
  · intro h
    simp [ReportUsbAudioUevents, h]
  · intro h
    simp [ReportUsbAudioUevents, h]
  · intro h
    have hne : st.attachedProduct ≠ some p := by rw [h]; intro hc; cases hc
    simp [ReportUsbAudioUevents, hne]

/-- Witness for C3: a matching remove of "HeadsetX" attached at time 10
and removed at 70 reports duration 60; a mismatched remove of "Other"
skips the report but resets the product; from the reset state the next
remove also skips. -/
theorem usb_audio_remove_match_mismatch_witness :
    ((⟨some "HeadsetX", 10⟩ : AudioState).attachedProduct = some "HeadsetX" ∧
      ReportUsbAudioUevents "drv" "HeadsetX" "remove" 70 ⟨some "HeadsetX", 10⟩ =
        (⟨none, 10⟩, [Report.usbAudio false "HeadsetX" (some 60)])) ∧
    ((⟨some "HeadsetX", 10⟩ : AudioState).attachedProduct ≠ some "Other" ∧
      ReportUsbAudioUevents "drv" "Other" "remove" 70 ⟨some "HeadsetX", 10⟩ =
        (⟨none, 10⟩, [])) ∧
    ((⟨none, 10⟩ : AudioState).attachedProduct = none ∧
      ReportUsbAudioUevents "drv" "Another" "remove" 90 ⟨none, 10⟩ = (⟨none, 10⟩, [])) :=
  ⟨⟨rfl, (usb_audio_remove_match_mismatch ⟨some "HeadsetX", 10⟩ "drv" "HeadsetX" 70).1 rfl⟩,
   ⟨by decide, (usb_audio_remove_match_mismatch ⟨some "HeadsetX", 10⟩ "drv" "Other" 70).2.1 (by decide)⟩,
   ⟨rfl, (usb_audio_remove_match_mismatch ⟨none, 10⟩ "drv" "Another" 90).2.2 rfl⟩⟩

/-- Claim C4: each mic index present in a mic-status message is handled
independently and produces its own MicBrokenOrDegraded report with the
correct (index, isBroken) pair; a buffer reporting mic 0 broken and mic 1
degraded yields exactly the two reports (0, true) and (1, false), and the
handler keeps no state between messages (it is a pure function of the
decoded entries). -/
theorem mic_status_independent_reports :
    (∀ (e : Nat × MicHealth) (es : List (Nat × MicHealth)),
      ReportMicStatusUevents (e :: es) =
        ReportMicBrokenOrDegraded e.1 (e.2 = MicHealth.broken) :: ReportMicStatusUevents es) ∧
    (∀ (i : Nat) (h : MicHealth),
      ReportMicStatusUevents [(i, h)] = [Report.micBrokenOrDegraded i (h = MicHealth.broken)]) ∧
    ReportMicStatusUevents [(0, MicHealth.broken), (1, MicHealth.degraded)] =
      [Report.micBrokenOrDegraded 0 true, Report.micBrokenOrDegraded 1 false] :=
  ⟨fun _ _ => rfl, fun _ _ => rfl, by decide⟩

lemma lookupField_nil (key : String) : lookupField key [] = none := rfl

lemma classify_no_fields (cfg : Config) (path : String) :
    classify cfg path [] = Candidate.ignored := by
  simp [classify, lookupField]

lemma parseUevent_no_eq (buffer : List String)
    (h : ∀ line ∈ buffer.tail, line.toList.contains '=' = false) :
    (parseUevent buffer).2 = [] := by
  cases buffer with
  | nil => rfl
  | cons path rest =>
    simp only [parseUevent]
    rw [List.filterMap_eq_nil_iff]
    intro line hl
    have hc : line.toList.contains '=' = false := h line hl
    simp [splitFieldLine, hc]
    simpa using hc

/-- Claim C5: single-shot processing of a malformed buffer (one with no
key=value line after the path line) returns the failure indicator and
leaves the whole tracked state — connector attach flag and time, audio
attach time and attached product — exactly as it was, emitting no
report. -/
theorem process_uevent_malformed_frame :
    ∀ (cfg : Config) (buffer : List String) (now : Nat) (st : ListenerState),
      (∀ line ∈ buffer.tail, line.toList.contains '=' = false) →
      ProcessUevent cfg buffer now st = (false, st, []) := by
  intro cfg buffer now st h
  have hf : (parseUevent buffer).2 = [] := parseUevent_no_eq buffer h
  simp only [ProcessUevent, hf, classify_no_fields]

/-- Witness for C5: the crafted buffer with a path line and one line
without an equals sign fails and leaves a nontrivial state untouched. -/
theorem process_uevent_malformed_frame_witness :
    (∀ line ∈ (["/devices/foo", "JUNKLINE"] : List String).tail, line.toList.contains '=' = false) ∧
    ProcessUevent (mkUeventListener "/a") ["/devices/foo", "JUNKLINE"] 42
        ⟨⟨true, 7⟩, ⟨some "HeadsetX", 3⟩⟩ =
      (false, ⟨⟨true, 7⟩, ⟨some "HeadsetX", 3⟩⟩, []) :=
  ⟨by decide,
   process_uevent_malformed_frame (mkUeventListener "/a") ["/devices/foo", "JUNKLINE"] 42
     ⟨⟨true, 7⟩, ⟨some "HeadsetX", 3⟩⟩ (by decide)⟩

lemma processUevent_false (cfg : Config) (buffer : List String) (now : Nat)
    (st : ListenerState) (h : (ProcessUevent cfg buffer now st).1 = false) :
    ProcessUevent cfg buffer now st = (false, st, []) := by
  simp only [ProcessUevent] at h ⊢
  cases hc : classify cfg (parseUevent buffer).1 (parseUevent buffer).2 <;> simp_all

/-- Claim C6: the forever loop terminates only on an unrecoverable
transport failure; any delivered message — in particular one the
single-shot step rejects as a failure — leaves the loop processing the
remaining deliveries, so a single bad message never stops processing of
subsequent events. -/
theorem listen_forever_liveness :
    (∀ (cfg : Config) (st : ListenerState) (buffer : List String) (t : Nat)
        (rest : List Delivery),
      ListenForever cfg st (Delivery.message buffer t :: rest) =
        ((ListenForever cfg (ProcessUevent cfg buffer t st).2.1 rest).1,
          (ProcessUevent cfg buffer t st).2.2 ++
            (ListenForever cfg (ProcessUevent cfg buffer t st).2.1 rest).2)) ∧
    (∀ (cfg : Config) (st : ListenerState) (buffer : List String) (t : Nat)
        (rest : List Delivery),
      (ProcessUevent cfg buffer t st).1 = false →
      ListenForever cfg st (Delivery.message buffer t :: rest) =
        ListenForever cfg st rest) ∧
    (∀ (cfg : Config) (st : ListenerState) (rest : List Delivery),
      ListenForever cfg st (Delivery.transportFailure :: rest) = (st, [])) := by
  refine ⟨?_, ?_, ?_⟩
  · intro cfg st buffer t rest
    rfl
  · intro cfg st buffer t rest h
    have hp := processUevent_false cfg buffer t st h
    simp [ListenForever, hp]
  · intro cfg st rest
    rfl

/-- Witness for C6: a malformed message rejected by the single-shot step
does not stop the loop from consuming the rest of the trace. -/
theorem listen_forever_liveness_witness :
    (ProcessUevent (mkUeventListener "/a") ["bad"] 1 ⟨⟨false, 0⟩, ⟨none, 0⟩⟩).1 = false ∧
    ListenForever (mkUeventListener "/a") ⟨⟨false, 0⟩, ⟨none, 0⟩⟩
        (Delivery.message ["bad"] 1 :: [Delivery.transportFailure]) =
      ListenForever (mkUeventListener "/a") ⟨⟨false, 0⟩, ⟨none, 0⟩⟩ [Delivery.transportFailure] :=
  ⟨by decide,
   listen_forever_liveness.2.1 (mkUeventListener "/a") ⟨⟨false, 0⟩, ⟨none, 0⟩⟩ ["bad"] 1
     [Delivery.transportFailure] (by decide)⟩

/-- Claim C7: the overheat-mitigation sysfs root is a construction-time
configuration input defaulting to the documented path, and a message
classifies as an overheat candidate only when its path matches the
configured root and a driver identifier is present. -/
theorem overheat_default_and_classification :
    (∀ audio_uevent : String,
      mkUeventListener audio_uevent = ⟨audio_uevent, kDefaultOverheatPath⟩) ∧
    kDefaultOverheatPath = "/sys/devices/platform/soc/soc:google,overheat_mitigation" ∧
    (∀ (cfg : Config) (path : String) (fields : List (String × String)) (d : String),
      classify cfg path fields = Candidate.overheat d →
      path = cfg.kUsbPortOverheatPath ∧ lookupField "DRIVER" fields = some d) := by
  refine ⟨fun _ => rfl, rfl, ?_⟩
  intro cfg path fields d h
  unfold classify at h
  split_ifs at h with h1 h2 h3 h4 <;>
  first
  | (rcases Option.isSome_iff_exists.mp h4.2 with ⟨x, hx⟩
     rw [hx] at h
     injection h with hd
     simp only [Option.getD_some] at hd
     subst hd
     exact ⟨h4.1, hx⟩)
  | cases h

/-- Witness for C7: a message on the default overheat root with a DRIVER
field classifies as an overheat candidate, and the theorem recovers the
configured root and the driver value from it. -/
theorem overheat_default_and_classification_witness :
    classify (mkUeventListener "/audio") kDefaultOverheatPath [("DRIVER", "typec_port")] =
      Candidate.overheat "typec_port" ∧
    (kDefaultOverheatPath = (mkUeventListener "/audio").kUsbPortOverheatPath ∧
      lookupField "DRIVER" [("DRIVER", "typec_port")] = some "typec_port") :=
  ⟨by decide,
   overheat_default_and_classification.2.2 (mkUeventListener "/audio") kDefaultOverheatPath
     [("DRIVER", "typec_port")] "typec_port" (by decide)⟩
